import Mathlib

/-!
Shallow embedding of the PrintStack inventory application
(`src/deploy/script.js` and the React components under `src/src`),
together with proofs about its data model, validator, referential-integrity
guard, query engine and auto-populate engine.

JavaScript values are modelled as follows: optional / possibly-absent object
fields become `Option`; JS numbers become `ℚ` (all arithmetic in the program
stays exact on the inputs the claims concern); JS strings become `String`;
JS truthiness on strings is emptiness, on numbers it is being nonzero, and
`undefined`/`null` are falsy.  Functions that can throw return `Except`.
-/

namespace PrintStack

/-! ## JavaScript-semantics helpers -/

/-- Truthiness of an optional JS string: `undefined` and `""` are falsy. -/
def optStrFalsy : Option String → Bool
  | none => true
  | some s => s == ""

/-- Truthiness of an optional JS number: `undefined` and `0` are falsy. -/
def optNumTruthy : Option ℚ → Bool
  | none => false
  | some q => !(q == 0)

/-- A JS template literal fragment `${x}` renders `undefined` as the string
`"undefined"`. -/
def jsTemplate : Option String → String
  | none => "undefined"
  | some s => s

/-- JS `a || b` on optional strings (used for `f.colorName || f.color`):
returns `b` when `a` is absent or empty. -/
def jsOrStr (a b : Option String) : Option String :=
  if optStrFalsy a then b else a

/-- `pat` occurs as a contiguous substring of `l` (JS `String.includes`). -/
def listIncludes (l pat : List Char) : Bool :=
  (List.range (l.length + 1)).any (fun i => pat.isPrefixOf (l.drop i))

/-- JS `s.includes(pat)`. -/
def jsIncludes (s pat : String) : Bool :=
  listIncludes s.data pat.data

/-- `c` is an ASCII whitespace character. -/
def isWsChar (c : Char) : Bool :=
  c == ' ' || c == '\t' || c == '\n' || c == '\r'

/-- JS `String.prototype.trim` (ASCII whitespace). -/
def jsTrim (s : String) : String :=
  ⟨List.reverse ((s.data.dropWhile isWsChar).reverse.dropWhile isWsChar)⟩

/-- Numeric value of a list of decimal digit characters. -/
def digitsVal (l : List Char) : ℕ :=
  l.foldl (fun acc c => acc * 10 + (c.toNat - ('0').toNat)) 0

/-- The sign flag, integer digits and fraction digits of a decimal literal
prefix, after optional leading whitespace and sign. -/
def decimalScan (l : List Char) : Bool × List Char × List Char :=
  let l := l.dropWhile isWsChar
  let (neg, l) :=
    match l with
    | '-' :: rest => (true, rest)
    | '+' :: rest => (false, rest)
    | _ => (false, l)
  let intPart := l.takeWhile Char.isDigit
  let rest := l.dropWhile Char.isDigit
  let fracPart :=
    match rest with
    | '.' :: r => r.takeWhile Char.isDigit
    | _ => []
  (neg, intPart, fracPart)

/-- The rational denoted by sign/integer/fraction digit components:
`±(intPart.fracPart)`. -/
def decimalValue (neg : Bool) (intPart fracPart : List Char) : ℚ :=
  let n : ℤ := (digitsVal intPart : ℤ) * 10 ^ fracPart.length + (digitsVal fracPart : ℤ)
  mkRat (if neg then -n else n) (10 ^ fracPart.length)

/-- JS `parseFloat` on decimal literals: parses the longest numeric prefix
(optional sign, digits, optional fraction); yields `none` (NaN) when no digit
is found.  Exponent notation is not modelled; no input in this development
uses it. -/
def jsParseFloat (s : String) : Option ℚ :=
  let (neg, intPart, fracPart) := decimalScan s.data
  if intPart.isEmpty && fracPart.isEmpty then none
  else some (decimalValue neg intPart fracPart)

/-- Parse a complete decimal literal (optional sign, digits, optional
fraction, nothing left over); `none` when the input is not entirely a
decimal literal. -/
def decimalAll (l : List Char) : Option ℚ :=
  let (neg, l1) :=
    match l with
    | '-' :: r => (true, r)
    | '+' :: r => (false, r)
    | _ => (false, l)
  let intPart := l1.takeWhile Char.isDigit
  let rest := l1.dropWhile Char.isDigit
  match rest with
  | [] => if intPart.isEmpty then none else some (decimalValue neg intPart [])
  | '.' :: r =>
      let fracPart := r.takeWhile Char.isDigit
      let rest2 := r.dropWhile Char.isDigit
      if !rest2.isEmpty then none
      else if intPart.isEmpty && fracPart.isEmpty then none
      else some (decimalValue neg intPart fracPart)
  | _ => none

/-- Exact rational addition through `mkRat` (kernel-computable form of `+`,
used to model JS `+` on numbers). -/
def qAdd (a b : ℚ) : ℚ :=
  mkRat (a.num * (b.den : ℤ) + b.num * (a.den : ℤ)) (a.den * b.den)

/-- Lexicographic strict order on character lists (JS `<` on strings). -/
def charListLt : List Char → List Char → Bool
  | [], [] => false
  | [], _ :: _ => true
  | _ :: _, [] => false
  | a :: as, b :: bs => if a < b then true else if b < a then false else charListLt as bs

/-- JS `a < b` on strings; on ISO `YYYY-MM-DD` dates this is date order. -/
def jsStrLt (a b : String) : Bool :=
  charListLt a.data b.data

/-- JS `String.prototype.toLowerCase` (character-wise lowering). -/
def jsToLower (s : String) : String :=
  ⟨s.data.map Char.toLower⟩

/-- Case-insensitive equality of two optional strings
(modelling `a.toLowerCase() === b.toLowerCase()` on fields that the calling
form always populates). -/
def lowerEq (a b : Option String) : Bool :=
  (a.map jsToLower) == (b.map jsToLower)

/-- Replace the first element satisfying `p` by its image under `u`
(JS code that mutates the object returned by `Array.find`). -/
def updateFirst (p : α → Bool) (u : α → α) : List α → List α
  | [] => []
  | x :: xs => if p x then u x :: xs else x :: updateFirst p u xs

/-! ## Data model

The record types mirror the object shapes manipulated by `script.js`.
Fields that legacy or partially-migrated records may lack are `Option`s. -/

/-- A `{min, max}` temperature object on a filament. -/
structure Temperature where
  min : Option ℚ := none
  max : Option ℚ := none
deriving DecidableEq

/-- A filament spool record (`filaments` array entries). -/
structure Filament where
  id : Int
  brand : Option String := none
  materialType : Option String := none
  /-- legacy field preceding `materialType` -/
  material : Option String := none
  color : Option String := none
  colorName : Option String := none
  colorHex : Option String := none
  diameter : Option ℚ := none
  weight : Option ℚ := none
  location : Option String := none
  purchasePrice : Option ℚ := none
  temperature : Option Temperature := none
  notes : Option String := none
  inStock : Bool := true
  deletionBlocked : Bool := false
deriving DecidableEq

/-- One entry of a model's `requirements` array. -/
structure Requirement where
  filamentId : Option Int := none
  color : Option String := none
  colorName : Option String := none
  material : Option String := none
  materialType : Option String := none
  /-- `populatePrintFilamentsFromModel` reads `requirement.weight`; the model
  forms never store it, so it is normally absent -/
  weight : Option ℚ := none
deriving DecidableEq

/-- A printable model record (`models` array entries).  `addModel` always
stores a `requirements` array; a record without one behaves like `[]` in every
scan the claims concern, so absence is modelled as the empty list. -/
structure Model where
  id : Int
  name : String
  link : Option String := none
  requirements : List Requirement := []
deriving DecidableEq

/-- One entry of a print record's `filaments` array (the spec's
`filamentUsages`), as built by `addPrint`. -/
structure PrintFilament where
  filamentId : Int
  color : Option String := none
  material : Option String := none
  weight : ℚ
  colorHex : Option String := none
deriving DecidableEq

/-- A print-history record (`prints` array entries).  New records carry the
`filaments` usage array; legacy records instead carry top-level
`filamentId` / `color` / `material` / `weight` fields. -/
structure PrintRecord where
  id : Int
  modelName : Option String := none
  weight : Option ℚ := none
  date : Option String := none
  color : Option String := none
  material : Option String := none
  filamentId : Option Int := none
  filaments : List PrintFilament := []
deriving DecidableEq

/-- The three in-memory collections (module-level `filaments`, `models`,
`prints` arrays). -/
structure AppState where
  filaments : List Filament := []
  models : List Model := []
  prints : List PrintRecord := []
deriving DecidableEq

/-! ## Entity Store: `validateFilamentData` and `saveData` -/

/-- `c` is a hexadecimal digit (the `[0-9A-Fa-f]` character class). -/
def isHexDigit (c : Char) : Bool :=
  (('0' ≤ c) && (c ≤ '9')) || (('A' ≤ c) && (c ≤ 'F')) || (('a' ≤ c) && (c ≤ 'f'))

/-- The regex `/^#[0-9A-Fa-f]{6}$/` of `validateFilamentData`. -/
def hexColorMatch (s : String) : Bool :=
  match s.data with
  | '#' :: rest => (rest.length == 6) && rest.all isHexDigit
  | _ => false

/-- The `brand` check of `validateFilamentData`:
`!f.brand || typeof f.brand !== 'string' || f.brand.trim() === ''` fails. -/
def checkBrand (f : Filament) : Bool :=
  match f.brand with
  | none => false
  | some s => if s == "" then false else !(jsTrim s == "")

/-- The `materialType` check of `validateFilamentData`. -/
def checkMaterialType (f : Filament) : Bool :=
  match f.materialType with
  | none => false
  | some s => if s == "" then false else !(jsTrim s == "")

/-- The `color` check of `validateFilamentData`. -/
def checkColor (f : Filament) : Bool :=
  match f.color with
  | none => false
  | some s => if s == "" then false else !(jsTrim s == "")

/-- The `colorHex` check of `validateFilamentData`:
`!f.colorHex || … || !/^#[0-9A-Fa-f]{6}$/.test(f.colorHex)` fails. -/
def checkColorHex (f : Filament) : Bool :=
  match f.colorHex with
  | none => false
  | some s => if s == "" then false else hexColorMatch s

/-- The `weight` check of `validateFilamentData`:
`!f.weight || typeof f.weight !== 'number' || f.weight <= 0` fails. -/
def checkWeight (f : Filament) : Bool :=
  match f.weight with
  | none => false
  | some w => if w == 0 then false else !(decide (w ≤ 0))

/-- The `diameter` check of `validateFilamentData`:
`!f.diameter || ![1.75, 2.85].includes(f.diameter)` fails. -/
def checkDiameter (f : Filament) : Bool :=
  match f.diameter with
  | none => false
  | some d => if d == 0 then false else ((d == mkRat 7 4) || (d == mkRat 57 20))

/-- The optional `purchasePrice` check of `validateFilamentData`:
`f.purchasePrice && (typeof … !== 'number' || f.purchasePrice < 0)` fails. -/
def checkPurchasePrice (f : Filament) : Bool :=
  match f.purchasePrice with
  | none => true
  | some p => !((!(p == 0)) && decide (p < 0))

/-- `temp.min && (… || temp.min < 150 || temp.min > 350)` — the minimum bound
is present, truthy and out of range. -/
def tempMinBad (t : Temperature) : Bool :=
  match t.min with
  | none => false
  | some m => (!(m == 0)) && (decide (m < 150) || decide (350 < m))

/-- `temp.max && (… || temp.max < 150 || temp.max > 350)` — the maximum bound
is present, truthy and out of range. -/
def tempMaxBad (t : Temperature) : Bool :=
  match t.max with
  | none => false
  | some m => (!(m == 0)) && (decide (m < 150) || decide (350 < m))

/-- `temp.min && temp.max && temp.min >= temp.max` — both bounds truthy and
inverted. -/
def tempRangeBad (t : Temperature) : Bool :=
  match t.min, t.max with
  | some m, some M => (!(m == 0)) && (!(M == 0)) && decide (M ≤ m)
  | _, _ => false

/-- The optional `temperature` check of `validateFilamentData`. -/
def checkTemperature (f : Filament) : Bool :=
  match f.temperature with
  | none => true
  | some t => !(tempMinBad t) && !(tempMaxBad t) && !(tempRangeBad t)

/-- `validateFilamentData` applied to one record: the sequence of early
returns in the `filaments.every` callback. -/
def validFilament (f : Filament) : Bool :=
  checkBrand f && checkMaterialType f && checkColor f && checkColorHex f &&
    checkWeight f && checkDiameter f && checkPurchasePrice f && checkTemperature f

/-- `validateFilamentData()`: every filament record passes the structural
checks. -/
def validateFilamentData (fs : List Filament) : Bool :=
  fs.all validFilament

/-- The versioned envelope written under the `printstackData` key. -/
structure SaveBlob where
  filaments : List Filament
  models : List Model
  prints : List PrintRecord
  version : String
  lastSaved : String
deriving DecidableEq

/-- The local-storage keys `saveData` writes (`none` = key absent). -/
structure Store where
  printstackData : Option SaveBlob := none
  filamentsKey : Option (List Filament) := none
  modelsKey : Option (List Model) := none
  printsKey : Option (List PrintRecord) := none
deriving DecidableEq

/-- `saveData()`: validates the filament collection; on failure returns
`false` without touching the store, otherwise writes the versioned envelope
plus the three backward-compatibility keys and returns `true`.
`nowIso` stands in for `new Date().toISOString()`. -/
def saveData (nowIso : String) (fs : List Filament) (ms : List Model)
    (ps : List PrintRecord) (st : Store) : Bool × Store :=
  if !(validateFilamentData fs) then (false, st)
  else
    (true,
      { printstackData := some ⟨fs, ms, ps, "2.0", nowIso⟩
        filamentsKey := some fs
        modelsKey := some ms
        printsKey := some ps })

/-! ## Referential-Integrity Guard: `deleteFilament` -/

/-- One entry of `deleteFilament`'s `modelReferences`: a referencing model's
name together with how many of its requirements match. -/
structure ModelReference where
  modelName : String
  count : ℕ
deriving DecidableEq

/-- The `models.forEach` scan of `deleteFilament`: models with at least one
requirement whose `filamentId === id`. -/
def modelReferences (ms : List Model) (id : Int) : List ModelReference :=
  ms.filterMap (fun m =>
    let refs := m.requirements.filter (fun r => r.filamentId == some id)
    if refs.length > 0 then some ⟨m.name, refs.length⟩ else none)

/-- The predicate of `deleteFilament`'s `prints.filter`:
`p.filamentId === id || (p.color === filament.color && (!p.material ||
p.material === filament.materialType))`.  Note that the color/material
disjunct is applied to every record, whatever its `filamentId`, and that the
`filaments` usage array of new-format records is never consulted. -/
def printRefMatch (id : Int) (filament : Filament) (p : PrintRecord) : Bool :=
  (p.filamentId == some id) ||
    ((p.color == filament.color) &&
      (optStrFalsy p.material || (p.material == filament.materialType)))

/-- `deleteFilament`'s `printReferences` scan. -/
def printReferences (id : Int) (filament : Filament) (ps : List PrintRecord) :
    List PrintRecord :=
  ps.filter (printRefMatch id filament)

/-- `deleteFilament(id)`.  `confirmAction` stands for the user's answer to the
`confirm()` dialog (soft-retire confirmation on the blocked path, deletion
confirmation on the unblocked path).  The persistence flush it triggers is
modelled separately by `saveData`. -/
def deleteFilament (id : Int) (confirmAction : Bool) (st : AppState) : AppState :=
  match st.filaments.find? (fun f => f.id == id) with
  | none => st
  | some filament =>
      if (modelReferences st.models id).length > 0 ||
          (printReferences id filament st.prints).length > 0 then
        if confirmAction then
          { st with
            filaments := updateFirst (fun f => f.id == id)
              (fun f => { f with inStock := false, deletionBlocked := true })
              st.filaments }
        else st
      else
        if confirmAction then
          { st with filaments := st.filaments.filter (fun f => !(f.id == id)) }
        else st

/-! ## Duplicate detection and merge: `addFilament` path -/

/-- The duplicate-match predicate of `checkForFilamentDuplicate`: the
existing record agrees with the new data on brand, materialType and colorHex
case-insensitively.  (The JS calls `toLowerCase()` directly; the add form
always populates these three fields on the new record.) -/
def duplicateMatch (d : Filament) (f : Filament) : Bool :=
  lowerEq f.brand d.brand && lowerEq f.materialType d.materialType &&
    lowerEq f.colorHex d.colorHex

/-- `checkForFilamentDuplicate`: first existing record matching the new
data. -/
def checkForFilamentDuplicate (fs : List Filament) (d : Filament) : Option Filament :=
  fs.find? (duplicateMatch d)

/-- The merge branch of `handleDuplicateFilament`:
`duplicate.weight += filamentData.weight` (absent operands give NaN,
modelled as `none`). -/
def mergeWeight (old new : Option ℚ) : Option ℚ :=
  match old, new with
  | some a, some b => some (qAdd a b)
  | _, _ => none

/-- The merge branch of `handleDuplicateFilament`:
`duplicate.notes = duplicate.notes ? `${duplicate.notes}; ${filamentData.notes}`
: filamentData.notes`. -/
def mergeNotes (old new : Option String) : Option String :=
  if optStrFalsy old then new
  else some (jsTemplate old ++ "; " ++ jsTemplate new)

/-- The mutation `handleDuplicateFilament` applies to the duplicate record
when the user confirms merging. -/
def mergeInto (d : Filament) (f : Filament) : Filament :=
  { f with weight := mergeWeight f.weight d.weight, notes := mergeNotes f.notes d.notes }

/-- The `addFilament` flow after form validation: detect a duplicate of the
collected form data `d`; on a duplicate, merge into it when the user confirms
(`shouldMerge`), else append; with no duplicate, append (`addNewFilament`). -/
def addFilamentFlow (shouldMerge : Bool) (d : Filament) (fs : List Filament) :
    List Filament :=
  match checkForFilamentDuplicate fs d with
  | some _ => if shouldMerge then updateFirst (duplicateMatch d) (mergeInto d) fs
              else fs ++ [d]
  | none => fs ++ [d]

/-! ## Model editing: `saveEditModel` -/

/-- The requirement list rebuilt by `saveEditModel` from the edit dialog's
search boxes: each box contributes `parseInt(inp.dataset.selectedId)`
(`none` models NaN); ids `> 0` are resolved against the live filament
collection and dropped when unresolved. -/
def rebuildRequirements (fs : List Filament) (selectedIds : List (Option Int)) :
    List Requirement :=
  selectedIds.filterMap (fun oid =>
    match oid with
    | none => none
    | some i =>
        if i > 0 then
          (fs.find? (fun x => x.id == i)).map (fun f =>
            { filamentId := some i,
              color := jsOrStr f.colorName f.color,
              material := jsOrStr f.materialType f.material })
        else none)

/-- `saveEditModel()`: mutates the found model's `name`, `link` and
`requirements` in place, then rejects (alert, no save) when the rebuilt
requirement list is empty.  Returns the new state and whether the edit was
accepted (saved). -/
def saveEditModel (editingModelId : Int) (nameInput linkInput : String)
    (selectedIds : List (Option Int)) (st : AppState) : AppState × Bool :=
  match st.models.find? (fun x => x.id == editingModelId) with
  | none => (st, false)
  | some _ =>
      let newReqs := rebuildRequirements st.filaments selectedIds
      let st' := { st with
        models := updateFirst (fun x => x.id == editingModelId)
          (fun m => { m with
            name := jsTrim nameInput,
            link := some (jsTrim linkInput),
            requirements := newReqs })
          st.models }
      if newReqs.length == 0 then (st', false) else (st', true)

/-! ## Print creation: `addPrint` -/

/-- One `.print-filament-item` row of the add-print form: the selected
filament id (`parseInt` of the select value; `none` = NaN) and the weight
input (`parseFloat`; `none` = NaN). -/
structure PrintFormItem where
  selectedId : Option Int := none
  weightInput : Option ℚ := none
deriving DecidableEq

/-- The `printFilaments` collection loop of `addPrint`: rows with a positive
parsed id and positive weight (`parseFloat(...) || 0`), resolved against the
live filament collection. -/
def collectPrintFilaments (fs : List Filament) (items : List PrintFormItem) :
    List PrintFilament :=
  items.filterMap (fun item =>
    match item.selectedId with
    | none => none
    | some fid =>
        let w := item.weightInput.getD 0
        if fid > 0 && decide (0 < w) then
          (fs.find? (fun f => f.id == fid)).map (fun f =>
            { filamentId := fid,
              color := jsOrStr f.colorName f.color,
              material := jsOrStr f.materialType f.material,
              weight := w,
              colorHex := f.colorHex })
        else none)

/-- The backwards-compatibility `color` field of a new print record. -/
def printColorField (pf : List PrintFilament) : Option String :=
  if pf.length == 1 then (pf.headD ⟨0, none, none, 0, none⟩).color
  else some (toString pf.length ++ "-color print")

/-- `addPrint()`: reads model name, total weight (`parseFloat`) and date from
the form, rejects when any is falsy or when no usable filament row exists,
and otherwise appends a new print record carrying the supplied date —
the date is never compared against the current date.  `now` stands for
`Date.now()` (the new record's id). -/
def addPrint (modelName : String) (totalWeight : Option ℚ) (date : String)
    (items : List PrintFormItem) (now : Int) (st : AppState) : AppState × Bool :=
  if (modelName == "") || !(optNumTruthy totalWeight) || (date == "") then (st, false)
  else
    let printFilaments := collectPrintFilaments st.filaments items
    if printFilaments.length == 0 then (st, false)
    else
      let pr : PrintRecord :=
        { id := now,
          modelName := some modelName,
          weight := totalWeight,
          date := some date,
          color := printColorField printFilaments,
          filaments := printFilaments }
      ({ st with prints := st.prints ++ [pr] }, true)

/-- The supplied date is strictly later than the current date (ISO strings
compare lexicographically). -/
def dateIsFuture (date today : String) : Bool :=
  jsStrLt today date

/-! ## Auto-Populate Engine: `populatePrintFilamentsFromModel` -/

/-- The row `populatePrintFilamentsFromModel` builds for one requirement:
the weight input is prefilled with `requirement.weight || ''` and the select
is set to the matching filament's id only when `requirement.filamentId` is
truthy and an exact id match exists in the live collection (no other
resolution is attempted). -/
def resolvePrintFormItem (fs : List Filament) (req : Requirement) : PrintFormItem :=
  { weightInput :=
      match req.weight with
      | none => none
      | some w => if w == 0 then none else some w,
    selectedId :=
      match req.filamentId with
      | none => none
      | some fid =>
          if fid == 0 then none
          else
            match fs.find? (fun f => f.id == fid) with
            | some matchingFilament => some matchingFilament.id
            | none => none }

/-- `clearPrintFilaments()`: empties the container and adds back one empty
row. -/
def clearPrintFilaments : List PrintFormItem := [{}]

/-- `populatePrintFilamentsFromModel(modelName)`: looks up the model by name;
with no model or no requirements clears the rows; otherwise empties the
container and appends one row per requirement.  `container` is the previous
row list; the code clears it (`container.innerHTML = ''`) before appending,
so the result never depends on it. -/
def populatePrintFilamentsFromModel (modelName : String) (ms : List Model)
    (fs : List Filament) (container : List PrintFormItem) : List PrintFormItem :=
  match ms.find? (fun m => m.name == modelName) with
  | none => clearPrintFilaments
  | some model =>
      if model.requirements.length == 0 then clearPrintFilaments
      else model.requirements.map (resolvePrintFormItem fs)

/-- Claim C3's resolution rule, transcribed from the claim: exact id match
against the live collection, else case-insensitive (materialType, color)
match among filaments marked inStock, else unresolved. -/
def claimC3Resolve (fs : List Filament) (req : Requirement) : Option Int :=
  match fs.find? (fun f => some f.id == req.filamentId) with
  | some f => some f.id
  | none =>
      match fs.find? (fun f =>
          f.inStock && lowerEq f.materialType req.materialType &&
            lowerEq f.color req.color) with
      | some f => some f.id
      | none => none

/-! ## Query Engine: `FilamentTable.filterRows` -/

/-- The searchable text `FilamentTable.filterRows` builds:
`` `${item.brand} ${item.materialType} ${item.material} ${item.colorName}
${item.color} ${item.location}` `` — six fields joined by single spaces, any
absent field rendering as the literal `"undefined"`. -/
def filamentSearchText (f : Filament) : String :=
  jsTemplate f.brand ++ " " ++ jsTemplate f.materialType ++ " " ++
    jsTemplate f.material ++ " " ++ jsTemplate f.colorName ++ " " ++
    jsTemplate f.color ++ " " ++ jsTemplate f.location

/-- `FilamentTable.filterRows(query)`: the caller passes the input already
lowercased; queries shorter than 2 characters restore the full collection,
otherwise rows are kept when the lowercased searchable text contains the
query. -/
def filamentFilterRows (query : String) (originalData : List Filament) :
    List Filament :=
  if query.length < 2 then originalData
  else originalData.filter (fun item =>
    jsIncludes (jsToLower (filamentSearchText item)) query)

/-- Claim C5's searchable text, transcribed from the claim: the concatenation
of brand, materialType, color and location only. -/
def claimC5SearchText (f : Filament) : String :=
  (f.brand.getD "") ++ " " ++ (f.materialType.getD "") ++ " " ++
    (f.color.getD "") ++ " " ++ (f.location.getD "")

/-- Claim C5's filter, transcribed from the claim. -/
def claimC5Filter (query : String) (fs : List Filament) : List Filament :=
  if query.length < 2 then fs
  else fs.filter (fun f =>
    jsIncludes (jsToLower (claimC5SearchText f)) (jsToLower query))

/-! ## Validator: `validateField` and its stages -/

/-- A JS form value as seen by the validator. -/
inductive JsValue where
  | str (s : String)
  | num (q : ℚ)
  | bool (b : Bool)
deriving DecidableEq

/-- JS falsiness of a form value. -/
def jsFalsy : JsValue → Bool
  | .str s => s == ""
  | .num q => q == 0
  | .bool b => !b

/-- JS number rendering used where the validator coerces a number to a
string; the validator only length-checks string-valued fields, so only the
integer case is exercised. -/
def qToString (q : ℚ) : String :=
  if q.den == 1 then toString q.num
  else toString q.num ++ "/" ++ toString q.den

/-- JS `String(v)`. -/
def jsValueToString : JsValue → String
  | .str s => s
  | .num q => qToString q
  | .bool b => if b then "true" else "false"

/-- JS `Number(string)` (`none` = NaN): whitespace-only is 0, otherwise the
whole trimmed string must be a decimal literal. -/
def jsStringToNumber (s : String) : Option ℚ :=
  let t := jsTrim s
  if t == "" then some 0 else decimalAll t.data

/-- Numeric coercion of a form value for relational comparison
(`none` = NaN, which compares false). -/
def jsToNumber : JsValue → Option ℚ
  | .num q => some q
  | .bool b => some (if b then 1 else 0)
  | .str s => jsStringToNumber s

/-- JS `value < m` after numeric coercion. -/
def jsLtQ (v : JsValue) (m : ℚ) : Bool :=
  match jsToNumber v with
  | none => false
  | some q => decide (q < m)

/-- JS `value > m` after numeric coercion. -/
def jsGtQ (v : JsValue) (m : ℚ) : Bool :=
  match jsToNumber v with
  | none => false
  | some q => decide (m < q)

/-- The validator's result object. -/
structure VResult where
  valid : Bool
  message : Option String := none
deriving DecidableEq

/-- A declarative field rule (`ValidationRules` entries).  The regex
`pattern` and the `validate` callback are abstracted as boolean tests. -/
structure Rule where
  required : Bool := false
  optional : Bool := false
  typeNumber : Bool := false
  min : Option ℚ := none
  max : Option ℚ := none
  minLength : Option ℕ := none
  maxLength : Option ℕ := none
  pattern : Option (JsValue → Bool) := none
  allowed : Option (List JsValue) := none
  customAllowed : Bool := false
  validate : Option (JsValue → Bool) := none
  message : Option String := none

/-- `rule.message || fallback` (the default message used on most failures). -/
def ruleMsg (rule : Rule) (fallback : String) : Option String :=
  if optStrFalsy rule.message then some fallback else rule.message

/-- `validateFieldType`: when the rule is number-typed and the value is not
the empty string, coerce through `parseFloat`, failing with
`"<field> must be a number"` on NaN. -/
def validateFieldType (value : JsValue) (rule : Rule) (fieldName : String) :
    Except VResult JsValue :=
  if rule.typeNumber && !(value == .str "") then
    match value with
    | .num q => .ok (.num q)
    | .bool _ => .error ⟨false, some (fieldName ++ " must be a number")⟩
    | .str s =>
        match jsParseFloat s with
        | none => .error ⟨false, some (fieldName ++ " must be a number")⟩
        | some n => .ok (.num n)
  else .ok value

/-- `validateFieldRange`: `rule.min !== undefined && value < rule.min`, then
the symmetric max check. -/
def validateFieldRange (value : JsValue) (rule : Rule) (fieldName : String) :
    VResult :=
  if (match rule.min with | some m => jsLtQ value m | none => false) then
    ⟨false, ruleMsg rule (fieldName ++ " must be at least " ++ qToString (rule.min.getD 0))⟩
  else if (match rule.max with | some m => jsGtQ value m | none => false) then
    ⟨false, ruleMsg rule (fieldName ++ " must be at most " ++ qToString (rule.max.getD 0))⟩
  else ⟨true, none⟩

/-- The length `validateFieldLength` measures:
`typeof value === 'string' ? value.length : String(value).length`. -/
def jsValueLength (v : JsValue) : ℕ :=
  match v with
  | .str s => s.length
  | _ => (jsValueToString v).length

/-- `validateFieldLength`: `rule.minLength && length < rule.minLength`, then
the symmetric max check (a zero bound is falsy and skipped). -/
def validateFieldLength (value : JsValue) (rule : Rule) (fieldName : String) :
    VResult :=
  let length := jsValueLength value
  if (match rule.minLength with
      | some ml => !(ml == 0) && decide (length < ml)
      | none => false) then
    ⟨false, ruleMsg rule (fieldName ++ " must be at least " ++
      toString (rule.minLength.getD 0) ++ " characters")⟩
  else if (match rule.maxLength with
      | some ml => !(ml == 0) && decide (ml < length)
      | none => false) then
    ⟨false, ruleMsg rule (fieldName ++ " must be at most " ++
      toString (rule.maxLength.getD 0) ++ " characters")⟩
  else ⟨true, none⟩

/-- `validateFieldPattern`: `rule.pattern && !rule.pattern.test(value)`. -/
def validateFieldPattern (value : JsValue) (rule : Rule) (fieldName : String) :
    VResult :=
  match rule.pattern with
  | some test => if !(test value) then
      ⟨false, ruleMsg rule (fieldName ++ " format is invalid")⟩
    else ⟨true, none⟩
  | none => ⟨true, none⟩

/-- `validateFieldAllowed`: membership in the allowed set (thunks already
forced), with the `customAllowed` escape accepting the literal `'Other'`. -/
def validateFieldAllowed (value : JsValue) (rule : Rule) (fieldName : String) :
    VResult :=
  match rule.allowed with
  | none => ⟨true, none⟩
  | some allowedValues =>
      if !(allowedValues.contains value) then
        if rule.customAllowed && (value == .str "Other") then ⟨true, none⟩
        else
          ⟨false, ruleMsg rule (fieldName ++ " must be one of: " ++
            String.intercalate ", " (allowedValues.map jsValueToString))⟩
      else ⟨true, none⟩

/-- `validateField(fieldName, value)`: looks the rule up and runs the checks
in source order with early returns. -/
def validateField (ruleSet : String → Option Rule) (fieldName : String)
    (value : JsValue) : VResult :=
  match ruleSet fieldName with
  | none => ⟨true, none⟩
  | some rule =>
      if rule.optional && jsFalsy value then ⟨true, none⟩
      else if rule.required && jsFalsy value then
        ⟨false, some (fieldName ++ " is required")⟩
      else
        match validateFieldType value rule fieldName with
        | .error r => r
        | .ok value =>
            let rangeResult := validateFieldRange value rule fieldName
            if !rangeResult.valid then rangeResult
            else
              let lengthResult := validateFieldLength value rule fieldName
              if !lengthResult.valid then lengthResult
              else
                let patternResult := validateFieldPattern value rule fieldName
                if !patternResult.valid then patternResult
                else
                  let allowedResult := validateFieldAllowed value rule fieldName
                  if !allowedResult.valid then allowedResult
                  else
                    match rule.validate with
                    | some p => if !(p value) then ⟨false, rule.message⟩
                                else ⟨true, none⟩
                    | none => ⟨true, none⟩

/-! Spec-side stage pipeline for claim C6: a stage either passes the
(possibly coerced) value on, or aborts the whole evaluation with its own
result; `runStages` runs stages in order with short-circuiting. -/

/-- Run stages in the given fixed order; the first stage that aborts
determines the result and no later stage is evaluated. -/
def runStages : JsValue → List (JsValue → Except VResult JsValue) → VResult
  | _, [] => ⟨true, none⟩
  | v, s :: rest =>
      match s v with
      | .error r => r
      | .ok v' => runStages v' rest

/-- Stage 1: required/optional presence. -/
def stagePresence (rule : Rule) (fieldName : String) (v : JsValue) :
    Except VResult JsValue :=
  if rule.optional && jsFalsy v then .error ⟨true, none⟩
  else if rule.required && jsFalsy v then
    .error ⟨false, some (fieldName ++ " is required")⟩
  else .ok v

/-- Lift a value-preserving check into a stage. -/
def liftCheck (check : JsValue → VResult) (v : JsValue) :
    Except VResult JsValue :=
  let r := check v
  if !r.valid then .error r else .ok v

/-- Stage 7: the custom predicate. -/
def stageCustom (rule : Rule) (v : JsValue) : Except VResult JsValue :=
  match rule.validate with
  | some p => if !(p v) then .error ⟨false, rule.message⟩ else .ok v
  | none => .ok v

/-- The seven stages of claim C6, in the claimed order. -/
def stageList (rule : Rule) (fieldName : String) :
    List (JsValue → Except VResult JsValue) :=
  [stagePresence rule fieldName,
   fun v => validateFieldType v rule fieldName,
   liftCheck (fun v => validateFieldRange v rule fieldName),
   liftCheck (fun v => validateFieldLength v rule fieldName),
   liftCheck (fun v => validateFieldPattern v rule fieldName),
   liftCheck (fun v => validateFieldAllowed v rule fieldName),
   stageCustom rule]

/-! ## Query Engine: `EnhancedDataGrid.sort` -/

/-- A column's `sortType`. -/
inductive SortType where
  | text
  | number
deriving DecidableEq

/-- One entry of the grid's column schema. -/
structure ColumnCfg where
  key : String
  sortType : SortType
deriving DecidableEq

/-- The grid's `currentSort` record. -/
structure SortSpec where
  column : Option String := none
  ascending : Bool := true
deriving DecidableEq

/-- The grid state `sort` touches. -/
structure GridState (α : Type) where
  visibleData : List α
  currentSort : SortSpec := {}
  currentPage : ℕ := 1
deriving DecidableEq

/-- A thrown JS exception. -/
inductive JsError where
  | typeError (msg : String)
deriving DecidableEq

/-- In `EnhancedDataGrid.sort`, `column` holds `header.dataset.sortable` — a
string.  The comparators read `column.key`; strings have no `key` property,
so the access yields `undefined`. -/
def columnDotKey (_column : String) : Option String := none

/-- `getNestedValue(obj, key)`: `key.split('.').reduce((current, prop) =>
current && current[prop], obj)`.  With `key` undefined, `undefined.split`
throws a TypeError.  All column keys are dot-free, so a string key is a
single property lookup. -/
def getNestedValue (props : α → String → Option JsValue) (obj : α)
    (key : Option String) : Except JsError (Option JsValue) :=
  match key with
  | none => .error (.typeError "Cannot read properties of undefined (reading split)")
  | some k => .ok (props obj k)

/-- `(getNestedValue(…) || 0)` in the number comparator. -/
def jsNumOrZero : Option JsValue → ℚ
  | some (.num q) => if q == 0 then 0 else q
  | _ => 0

/-- Exact rational subtraction through `mkRat` (kernel-computable form of
`-`). -/
def qSub (a b : ℚ) : ℚ :=
  mkRat (a.num * (b.den : ℤ) - b.num * (a.den : ℤ)) (a.den * b.den)

/-- Exact rational negation. -/
def qNeg (a : ℚ) : ℚ :=
  mkRat (-a.num) a.den

/-- `String(getNestedValue(…) || '')` in the text comparator. -/
def jsStrOrEmpty : Option JsValue → String
  | none => ""
  | some v => if jsFalsy v then "" else jsValueToString v

/-- `aVal.localeCompare(bVal)` modelled as sign of lexicographic comparison
(adequate for the ASCII data of this application). -/
def localeCompare (a b : String) : ℚ :=
  if jsStrLt a b then qNeg 1 else if jsStrLt b a then 1 else 0

/-- The number-column comparator of `EnhancedDataGrid.sort`. -/
def numCompare (props : α → String → Option JsValue) (column : String)
    (ascending : Bool) (a b : α) : Except JsError ℚ :=
  match getNestedValue props a (columnDotKey column) with
  | .error e => .error e
  | .ok aRaw =>
      match getNestedValue props b (columnDotKey column) with
      | .error e => .error e
      | .ok bRaw =>
          let aVal := jsNumOrZero aRaw
          let bVal := jsNumOrZero bRaw
          .ok (if ascending then qSub aVal bVal else qSub bVal aVal)

/-- The text-column comparator of `EnhancedDataGrid.sort`. -/
def textCompare (props : α → String → Option JsValue) (column : String)
    (ascending : Bool) (a b : α) : Except JsError ℚ :=
  match getNestedValue props a (columnDotKey column) with
  | .error e => .error e
  | .ok aRaw =>
      match getNestedValue props b (columnDotKey column) with
      | .error e => .error e
      | .ok bRaw =>
          let aVal := jsToLower (jsStrOrEmpty aRaw)
          let bVal := jsToLower (jsStrOrEmpty bRaw)
          let comparison := localeCompare aVal bVal
          .ok (if ascending then comparison else qNeg comparison)

/-- Insert into a sorted list, propagating comparator exceptions (JS array
sort is a stable comparison sort; an exception thrown by the comparator
aborts the sort call). -/
def insertE (cmp : α → α → Except JsError ℚ) (x : α) :
    List α → Except JsError (List α)
  | [] => .ok [x]
  | y :: ys =>
      match cmp x y with
      | .error e => .error e
      | .ok c =>
          if decide (0 < c) then
            match insertE cmp x ys with
            | .error e => .error e
            | .ok r => .ok (y :: r)
          else .ok (x :: y :: ys)

/-- Stable sort with a fallible comparator. -/
def sortE (cmp : α → α → Except JsError ℚ) :
    List α → Except JsError (List α)
  | [] => .ok []
  | x :: xs =>
      match sortE cmp xs with
      | .error e => .error e
      | .ok r => insertE cmp x r

/-- `EnhancedDataGrid.sort(header)` on the state it reads and writes:
computes the toggled direction, finds the column config, sorts
`visibleData` with the sortType's comparator and resets to page 1. -/
def gridSort (props : α → String → Option JsValue) (columns : List ColumnCfg)
    (st : GridState α) (column : String) : Except JsError (GridState α) :=
  let ascending :=
    if st.currentSort.column == some column then !st.currentSort.ascending
    else true
  match columns.find? (fun c => c.key == column) with
  | none => .error (.typeError "columnConfig is undefined")
  | some cfg =>
      match (match cfg.sortType with
             | .number => sortE (numCompare props column ascending) st.visibleData
             | .text => sortE (textCompare props column ascending) st.visibleData) with
      | .error e => .error e
      | .ok sorted =>
          .ok { visibleData := sorted,
                currentSort := ⟨some column, ascending⟩,
                currentPage := 1 }

/-- The property table of a filament row, as rendered by `FilamentTable`. -/
def filamentProps (f : Filament) (key : String) : Option JsValue :=
  if key == "brand" then f.brand.map .str
  else if key == "materialType" then f.materialType.map .str
  else if key == "material" then f.material.map .str
  else if key == "color" then f.color.map .str
  else if key == "colorName" then f.colorName.map .str
  else if key == "weight" then f.weight.map .num
  else if key == "location" then f.location.map .str
  else if key == "inStock" then some (.bool f.inStock)
  else none

/-- The `FilamentTable` column schema. -/
def filamentColumns : List ColumnCfg :=
  [⟨"brand", .text⟩, ⟨"materialType", .text⟩, ⟨"color", .text⟩,
   ⟨"weight", .number⟩, ⟨"location", .text⟩, ⟨"inStock", .text⟩]

/-! ## Spec-side predicates for claim C2

`filamentStructurallyInvalid` spells out the structural-invalidity
enumeration that `saveData` actually refuses — the amended form of claim
C2's enumeration.  It matches the claim on brand/materialType/color (missing
or blank), colorHex (not `#RRGGBB`), weight (not positive), diameter
(outside `{1.75, 2.85}`) and purchasePrice (negative), but on the optional
temperature range it follows the code's truthiness semantics
(`temp.min && …`): only a *truthy* (nonzero, present) bound outside
`[150, 350]`, or truthy inverted bounds, count as invalid, whereas the
claim's §3 invariant `150 ≤ min < max ≤ 350` also rejects zero or missing
bounds.  `claimTemperatureInvalid` below is that strict reading; the
counterexample shows `saveData` persisting a record the claim calls
structurally invalid. -/

/-- Claim C2: brand is not a non-empty string. -/
def specBrandBad (f : Filament) : Bool :=
  match f.brand with
  | none => true
  | some s => jsTrim s == ""

/-- Claim C2: materialType is not a non-empty string. -/
def specMaterialTypeBad (f : Filament) : Bool :=
  match f.materialType with
  | none => true
  | some s => jsTrim s == ""

/-- Claim C2: color is not a non-empty string. -/
def specColorBad (f : Filament) : Bool :=
  match f.color with
  | none => true
  | some s => jsTrim s == ""

/-- Claim C2: colorHex does not match `#RRGGBB`. -/
def specColorHexBad (f : Filament) : Bool :=
  match f.colorHex with
  | none => true
  | some s => !(hexColorMatch s)

/-- Claim C2: weight is not a positive number. -/
def specWeightBad (f : Filament) : Bool :=
  match f.weight with
  | none => true
  | some w => decide (w ≤ 0)

/-- Claim C2: diameter is not in `{1.75, 2.85}`. -/
def specDiameterBad (f : Filament) : Bool :=
  match f.diameter with
  | none => true
  | some d => !((d == mkRat 7 4) || (d == mkRat 57 20))

/-- Claim C2: the optional purchasePrice is present but negative. -/
def specPurchasePriceBad (f : Filament) : Bool :=
  match f.purchasePrice with
  | none => false
  | some p => decide (p < 0)

/-- Amended C2: the optional temperature range has a truthy bound outside
`[150, 350]`, or truthy inverted bounds — the code-detected temperature
invalidity, strictly weaker than the claim's `150 ≤ min < max ≤ 350`
because zero or missing bounds short-circuit the code's checks. -/
def specTemperatureBad (f : Filament) : Bool :=
  match f.temperature with
  | none => false
  | some t => tempMinBad t || tempMaxBad t || tempRangeBad t

/-- The original claim's reading of a bad temperature range (spec §3:
`temperature: optional {min, max} integers, 150 ≤ min < max ≤ 350`): a
present temperature object whose bounds are not two numbers with
`150 ≤ min < max ≤ 350`. -/
def claimTemperatureInvalid (f : Filament) : Bool :=
  match f.temperature with
  | none => false
  | some t =>
      match t.min, t.max with
      | some m, some M =>
          !(decide (150 ≤ m) && decide (m < M) && decide (M ≤ 350))
      | _, _ => true

/-- The amended C2's notion of a structurally invalid filament record: the
claim's enumeration with the temperature clause weakened to the code's
truthy-bounds semantics. -/
def filamentStructurallyInvalid (f : Filament) : Bool :=
  specBrandBad f || specMaterialTypeBad f || specColorBad f || specColorHexBad f ||
    specWeightBad f || specDiameterBad f || specPurchasePriceBad f || specTemperatureBad f

/-- A concrete record whose colorHex fails the `#RRGGBB` shape. -/
def c2BadFilament : Filament :=
  { id := 1, brand := some "Acme", materialType := some "PLA", color := some "Red",
    colorHex := some "#GGGGGG", diameter := some (mkRat 7 4), weight := some 1000 }

/-- A concrete record that is valid except for its temperature range
`{min: 0, max: 200}`, which violates the claimed `150 ≤ min < max ≤ 350`
invariant but short-circuits every temperature check of
`validateFilamentData` because `0` is falsy. -/
def c2TempFilament : Filament :=
  { id := 1, brand := some "Acme", materialType := some "PLA", color := some "Red",
    colorHex := some "#FF0000", diameter := some (mkRat 7 4), weight := some 1000,
    temperature := some ⟨some 0, some 200⟩ }

/-! ## Concrete fixtures used by counterexamples and witnesses -/

/-- C1: a red spool used by a two-colour print. -/
def c1FilA : Filament :=
  { id := 1, brand := some "Acme", materialType := some "PLA",
    color := some "Red", colorHex := some "#FF0000",
    diameter := some (mkRat 7 4), weight := some 1000 }

/-- C1: a blue spool used by the same two-colour print. -/
def c1FilB : Filament :=
  { id := 2, brand := some "Acme", materialType := some "PLA",
    color := some "Blue", colorHex := some "#0000FF",
    diameter := some (mkRat 7 4), weight := some 1000 }

/-- C1: a new-format print whose `filaments` usage array references both
spools by id; its backwards-compatibility `color` is `"2-color print"`. -/
def c1Print : PrintRecord :=
  { id := 10, modelName := some "Boat", weight := some 20,
    date := some "2026-01-01", color := some "2-color print",
    filaments := [⟨1, some "Red", some "PLA", 10, some "#FF0000"⟩,
                  ⟨2, some "Blue", some "PLA", 10, some "#0000FF"⟩] }

/-- C1: the state holding both spools and the print that uses them. -/
def c1State : AppState :=
  { filaments := [c1FilA, c1FilB], models := [], prints := [c1Print] }

/-- C3: the only live filament — in stock, PLA, Red, id 5. -/
def c3Filament : Filament :=
  { id := 5, brand := some "Bob", materialType := some "PLA",
    color := some "Red", colorHex := some "#FF0000",
    diameter := some (mkRat 7 4), weight := some 1000, inStock := true }

/-- C3: a requirement whose stored filamentId 7 no longer exists, with
materialType PLA and color Red matching the live spool. -/
def c3Req : Requirement :=
  { filamentId := some 7, color := some "Red", material := some "PLA",
    materialType := some "PLA" }

/-- C3: a model with that single requirement. -/
def c3Model : Model :=
  { id := 1, name := "Boat", requirements := [c3Req] }

/-- C4: first grid row. -/
def c4FilA : Filament :=
  { id := 1, brand := some "Acme", materialType := some "PLA",
    color := some "Red", weight := some 500 }

/-- C4: second grid row. -/
def c4FilB : Filament :=
  { id := 2, brand := some "Zeta", materialType := some "PETG",
    color := some "Blue", weight := some 750 }

/-- C5: a filament whose legacy `colorName` is Blue but whose `color` is
Red. -/
def c5Filament : Filament :=
  { id := 1, brand := some "Acme", materialType := some "PLA",
    color := some "Red", colorName := some "Blue", location := some "Shelf" }

/-- C7: the filament targeted for deletion (id 1). -/
def c7Filament : Filament :=
  { id := 1, brand := some "Acme", materialType := some "PLA",
    color := some "Red", colorHex := some "#FF0000",
    diameter := some (mkRat 7 4), weight := some 1000 }

/-- C7: a print record carrying filamentId 2 (≠ 1) together with a matching
color+material pair. -/
def c7Print : PrintRecord :=
  { id := 100, modelName := some "M", weight := some 5,
    date := some "2026-01-02", color := some "Red", material := some "PLA",
    filamentId := some 2 }

/-- C7: the state holding that filament and print. -/
def c7State : AppState :=
  { filaments := [c7Filament], models := [], prints := [c7Print] }

/-- C8: the original single requirement of the model being edited. -/
def c8Req : Requirement :=
  { filamentId := some 5, color := some "Red", material := some "PLA" }

/-- C8: a model with a non-empty requirements list. -/
def c8Model : Model :=
  { id := 1, name := "Boat", link := some "", requirements := [c8Req] }

/-- C8: the state holding that model. -/
def c8State : AppState :=
  { filaments := [], models := [c8Model], prints := [] }

/-- C9: an in-stock filament selectable on the print form. -/
def c9Filament : Filament :=
  { id := 5, brand := some "Bob", materialType := some "PLA",
    color := some "Red", colorHex := some "#FF0000" }

/-- C9: the state holding that filament and no prints. -/
def c9State : AppState :=
  { filaments := [c9Filament] }

/-- C9: the print record `addPrint` builds from the future-dated form. -/
def c9ExpectedPrint : PrintRecord :=
  { id := 999, modelName := some "Boat", weight := some 10,
    date := some "2030-01-01", color := some "Red",
    filaments := [⟨5, some "Red", some "PLA", 10, some "#FF0000"⟩] }

/-- C10: the existing spool the new data duplicates. -/
def c10Existing : Filament :=
  { id := 1, brand := some "Acme", materialType := some "PLA",
    color := some "Red", colorHex := some "#FF0000",
    diameter := some (mkRat 7 4), weight := some 1000, notes := some "old" }

/-- C10: the freshly collected form data (same brand/materialType/colorHex up
to case). -/
def c10NewData : Filament :=
  { id := 2, brand := some "acme", materialType := some "pla",
    color := some "Crimson", colorHex := some "#ff0000",
    diameter := some (mkRat 7 4), weight := some 250, notes := some "new" }

/-- C6: the concrete weight rule used by the witness. -/
def c6Rule : Rule :=
  { required := true, typeNumber := true, min := some 1, max := some 10000 }

/-- C6: a rule set holding that rule for every field name. -/
def c6RuleSet : String → Option Rule := fun _ => some c6Rule

/-! ## Helper lemmas -/

theorem updateFirst_of_forall_not (p : α → Bool) (u : α → α) (s : List α)
    (hs : ∀ x ∈ s, p x = false) (a : α) (t : List α) (ha : p a = true) :
    updateFirst p u (s ++ a :: t) = s ++ u a :: t := by
  induction s with
  | nil => simp [updateFirst, ha]
  | cons x xs ih =>
      have hx : p x = false := hs x (by simp)
      simp only [List.cons_append, updateFirst, hx]
      simp only [Bool.false_eq_true, if_false, List.cons.injEq, true_and]
      exact ih (fun y hy => hs y (by simp [hy]))

theorem updateFirst_map_eq (p : α → Bool) (u : α → α) (g : α → β)
    (hg : ∀ a, g (u a) = g a) (l : List α) :
    (updateFirst p u l).map g = l.map g := by
  induction l with
  | nil => rfl
  | cons x xs ih =>
      by_cases hx : p x = true
      · simp [updateFirst, hx, hg]
      · simp [updateFirst, hx, ih]

theorem updateFirst_length (p : α → Bool) (u : α → α) (l : List α) :
    (updateFirst p u l).length = l.length := by
  induction l with
  | nil => rfl
  | cons x xs ih =>
      by_cases hx : p x = true
      · simp [updateFirst, hx]
      · simp [updateFirst, hx, ih]

/-- Decompose a successful `List.find?`: the list splits as a clean prefix,
the found element, and a tail. -/
theorem find?_decomp {p : α → Bool} {l : List α} {a : α}
    (h : l.find? p = some a) :
    ∃ s t, l = s ++ a :: t ∧ (∀ x ∈ s, p x = false) ∧ p a = true := by
  induction l with
  | nil => simp [List.find?] at h
  | cons x xs ih =>
      rw [List.find?] at h
      by_cases hx : p x = true
      · rw [hx] at h
        simp only [Option.some.injEq] at h
        exact ⟨[], xs, by simp [h], by simp, h ▸ hx⟩
      · have hx' : p x = false := by simpa using hx
        rw [hx'] at h
        obtain ⟨s, t, hl, hs, ha⟩ := ih h
        exact ⟨x :: s, t, by simp [hl], by
          intro y hy
          rcases List.mem_cons.mp hy with rfl | hy
          · exact hx'
          · exact hs y hy, ha⟩

theorem specBrandBad_check {f : Filament} (h : specBrandBad f = true) :
    checkBrand f = false := by
  unfold specBrandBad at h
  unfold checkBrand
  cases hb : f.brand with
  | none => rfl
  | some s => rw [hb] at h; simp at h; simp [h]

theorem specMaterialTypeBad_check {f : Filament} (h : specMaterialTypeBad f = true) :
    checkMaterialType f = false := by
  unfold specMaterialTypeBad at h
  unfold checkMaterialType
  cases hb : f.materialType with
  | none => rfl
  | some s => rw [hb] at h; simp at h; simp [h]

theorem specColorBad_check {f : Filament} (h : specColorBad f = true) :
    checkColor f = false := by
  unfold specColorBad at h
  unfold checkColor
  cases hb : f.color with
  | none => rfl
  | some s => rw [hb] at h; simp at h; simp [h]

theorem specColorHexBad_check {f : Filament} (h : specColorHexBad f = true) :
    checkColorHex f = false := by
  unfold specColorHexBad at h
  unfold checkColorHex
  cases hb : f.colorHex with
  | none => rfl
  | some s =>
      rw [hb] at h
      simp only [Bool.not_eq_true'] at h
      simp [h]

theorem specWeightBad_check {f : Filament} (h : specWeightBad f = true) :
    checkWeight f = false := by
  unfold specWeightBad at h
  unfold checkWeight
  cases hb : f.weight with
  | none => rfl
  | some w =>
      rw [hb] at h
      simp only [decide_eq_true_eq] at h
      simp [h]

theorem specDiameterBad_check {f : Filament} (h : specDiameterBad f = true) :
    checkDiameter f = false := by
  unfold specDiameterBad at h
  unfold checkDiameter
  cases hb : f.diameter with
  | none => rfl
  | some d =>
      rw [hb] at h
      simp only [Bool.not_eq_true'] at h
      simp [h]

theorem specPurchasePriceBad_check {f : Filament} (h : specPurchasePriceBad f = true) :
    checkPurchasePrice f = false := by
  unfold specPurchasePriceBad at h
  unfold checkPurchasePrice
  cases hb : f.purchasePrice with
  | none => rw [hb] at h; exact absurd h (by simp)
  | some p =>
      rw [hb] at h
      simp only [decide_eq_true_eq] at h
      have hp : ¬(p == 0) = true := by
        simp only [beq_iff_eq]
        intro h0
        rw [h0] at h
        exact absurd h (by norm_num)
      simp [hp, h]

theorem specTemperatureBad_check {f : Filament} (h : specTemperatureBad f = true) :
    checkTemperature f = false := by
  unfold specTemperatureBad at h
  unfold checkTemperature
  cases hb : f.temperature with
  | none => rw [hb] at h; exact absurd h (by simp)
  | some t =>
      rw [hb] at h
      rcases Bool.or_eq_true _ _ |>.mp h with h' | h'
      · rcases Bool.or_eq_true _ _ |>.mp h' with h'' | h''
        · simp [h'']
        · simp [h'']
      · simp [h']

theorem invalid_not_validFilament {f : Filament}
    (h : filamentStructurallyInvalid f = true) : validFilament f = false := by
  unfold filamentStructurallyInvalid at h
  repeat rw [Bool.or_eq_true] at h
  unfold validFilament
  rcases h with ((((((h | h) | h) | h) | h) | h) | h) | h
  · simp [specBrandBad_check h]
  · simp [specMaterialTypeBad_check h]
  · simp [specColorBad_check h]
  · simp [specColorHexBad_check h]
  · simp [specWeightBad_check h]
  · simp [specDiameterBad_check h]
  · simp [specPurchasePriceBad_check h]
  · simp [specTemperatureBad_check h]

/-- `qAdd` is rational addition. -/
theorem qAdd_eq (a b : ℚ) : qAdd a b = a + b := by
  rw [qAdd, Rat.mkRat_eq_div]
  have ha : ((a.den : ℤ) : ℚ) ≠ 0 := by
    exact_mod_cast (Nat.cast_ne_zero (R := ℚ)).mpr a.den_nz
  have hb : ((b.den : ℤ) : ℚ) ≠ 0 := by
    exact_mod_cast (Nat.cast_ne_zero (R := ℚ)).mpr b.den_nz
  push_cast
  conv_rhs => rw [← Rat.num_div_den a, ← Rat.num_div_den b]
  field_simp

/-! ## Claim theorems -/

/-- C2 counterexample: the claim is false as stated.  `c2TempFilament`
carries the temperature range `{min: 0, max: 200}` — structurally invalid
under the claimed `150 ≤ min < max ≤ 350` invariant — yet
`validateFilamentData` accepts it (`temp.min &&` short-circuits on the falsy
bound 0) and `saveData` persists the collection instead of returning failure
and leaving the store untouched. -/
theorem saveData_accepts_invalid_temperature :
    claimTemperatureInvalid c2TempFilament = true ∧
      validateFilamentData [c2TempFilament] = true ∧
      saveData "2026-10-11" [c2TempFilament] [] [] {} =
        (true,
          { printstackData := some ⟨[c2TempFilament], [], [], "2.0", "2026-10-11"⟩,
            filamentsKey := some [c2TempFilament], modelsKey := some [],
            printsKey := some [] }) := by
  refine ⟨by decide, by decide, by decide⟩

/-- C2 (amended): for every in-memory state, `save()` validates the full
filament collection before writing; if some filament record is structurally
invalid — missing/blank brand, materialType or color, colorHex not matching
`#RRGGBB`, non-positive weight, diameter outside `{1.75, 2.85}`, negative
purchasePrice, or a temperature range with a truthy (nonzero) bound outside
`[150, 350]` or truthy inverted bounds (zero or missing bounds are skipped,
unlike the claimed `150 ≤ min < max ≤ 350`) — then `saveData` returns
failure and performs no write: the persisted store is returned untouched. -/
theorem saveData_refuses_invalid (nowIso : String) (fs : List Filament)
    (ms : List Model) (ps : List PrintRecord) (st : Store)
    (h : ∃ f ∈ fs, filamentStructurallyInvalid f = true) :
    saveData nowIso fs ms ps st = (false, st) := by
  obtain ⟨f, hf, hbad⟩ := h
  have hv : validateFilamentData fs = false := by
    rcases hall : validateFilamentData fs with _ | _
    · rfl
    · exact absurd (invalid_not_validFilament hbad)
        (by simp [List.all_eq_true.mp hall f hf])
  simp [saveData, hv]

/-- Witness for C2 at a concrete collection containing a record with a
malformed colorHex. -/
theorem saveData_refuses_invalid_witness :
    (∃ f ∈ [c2BadFilament], filamentStructurallyInvalid f = true) ∧
      saveData "2026-10-11" [c2BadFilament] [] [] {} = (false, {}) :=
  ⟨⟨c2BadFilament, by simp, by decide⟩,
    saveData_refuses_invalid "2026-10-11" [c2BadFilament] [] [] {}
      ⟨c2BadFilament, by simp, by decide⟩⟩

/-- C1: refuted by the code — `deleteFilament` scans only top-level
`filamentId` / color+material fields of print records, never the
`filaments` usage array of new-format records.  The two-colour print
`c1Print` references spool 1 in its usage array, yet `deleteFilament 1`
hard-deletes the spool from the collection instead of soft-retiring it: the
reference scans come up empty and the confirmed deletion removes the
record. -/
theorem deleteFilament_removes_referenced :
    (c1Print.filaments.any (fun u => u.filamentId == 1)) = true ∧
      modelReferences c1State.models 1 = [] ∧
      printReferences 1 c1FilA c1State.prints = [] ∧
      deleteFilament 1 true c1State =
        { filaments := [c1FilB], models := [], prints := [c1Print] } := by
  refine ⟨by decide, by decide, by decide, ?_⟩
  decide

/-- C4: refuted by the code — `EnhancedDataGrid.sort` reads `column.key`
where `column` is already the key string, so both comparators call
`getNestedValue` with `undefined` and `undefined.split('.')` throws a
TypeError on the first comparison; no sorting ever happens on a grid with at
least two rows, for text and number columns alike. -/
theorem gridSort_throws :
    gridSort filamentProps filamentColumns ⟨[c4FilA, c4FilB], {}, 1⟩ "brand" =
        .error (.typeError "Cannot read properties of undefined (reading split)") ∧
      gridSort filamentProps filamentColumns ⟨[c4FilA, c4FilB], {}, 1⟩ "weight" =
        .error (.typeError "Cannot read properties of undefined (reading split)") := by
  constructor
  · rfl
  · rfl

/-- C8: refuted by the code — `saveEditModel` overwrites the model's name,
link and requirements before checking the rebuilt requirement list; when the
edit dialog holds no selected filament the edit is rejected (no save), but
the stored model has already been mutated and its requirements list is now
empty. -/
theorem saveEditModel_mutates_on_reject :
    c8Model.requirements.length = 1 ∧
      saveEditModel 1 "NewBoat" "http" [none] c8State =
        ({ filaments := [], prints := [],
           models := [{ id := 1, name := "NewBoat", link := some "http",
                        requirements := [] }] },
         false) := by
  constructor
  · decide
  · decide

/-- C9: refuted by the code — `addPrint` never consults the current date:
with the date field set to 2030-01-01 (strictly later than the current date
2026-10-11) and otherwise valid inputs, the creation succeeds and the
future-dated record is appended to the collection. -/
theorem addPrint_accepts_future_date :
    dateIsFuture "2030-01-01" "2026-10-11" = true ∧
      addPrint "Boat" (some 10) "2030-01-01" [⟨some 5, some 10⟩] 999 c9State =
        ({ filaments := [c9Filament], models := [], prints := [c9ExpectedPrint] },
         true) := by
  constructor
  · decide
  · decide

/-- C3 counterexample: the claimed (materialType, color) fallback does not
exist.  Requirement `c3Req` stores the dead id 7, while the in-stock spool
`c3Filament` (id 5) matches its materialType and color exactly; the claim's
resolution rule picks spool 5, but the code leaves the row unresolved. -/
theorem populate_fallback_counterexample :
    (populatePrintFilamentsFromModel "Boat" [c3Model] [c3Filament] []).map
        PrintFormItem.selectedId = [none] ∧
      c3Filament.inStock = true ∧
      lowerEq c3Filament.materialType c3Req.materialType = true ∧
      lowerEq c3Filament.color c3Req.color = true ∧
      (∀ f ∈ [c3Filament], (f.id == (7 : Int)) = false) ∧
      claimC3Resolve [c3Filament] c3Req = some 5 := by
  refine ⟨by decide, by decide, by decide, by decide, by decide, by decide⟩

/-- C3 (amended): selecting a model with N requirements produces exactly N
filament-usage rows; each is resolved by exact filamentId match against the
live filament collection only — there is no (materialType, color) fallback,
and a row whose stored id has no live match (or no id) stays unresolved but
is still created, not dropped.  The weight input is left blank when the
requirement carries no weight, and a reselection rebuilds the entire row list
independently of the previous rows. -/
theorem populate_amended (modelName : String) (ms : List Model)
    (fs : List Filament) (container container' : List PrintFormItem) (m : Model)
    (hfind : ms.find? (fun x => x.name == modelName) = some m)
    (hne : m.requirements.length ≠ 0) :
    populatePrintFilamentsFromModel modelName ms fs container =
        m.requirements.map (resolvePrintFormItem fs) ∧
      (populatePrintFilamentsFromModel modelName ms fs container).length =
        m.requirements.length ∧
      populatePrintFilamentsFromModel modelName ms fs container =
        populatePrintFilamentsFromModel modelName ms fs container' ∧
      (∀ req : Requirement,
        (resolvePrintFormItem fs req).selectedId =
          (match req.filamentId with
           | some fid =>
               if fid ≠ 0 ∧ fs.any (fun f => f.id == fid) then some fid else none
           | none => none)) ∧
      (∀ req : Requirement, req.weight = none →
        (resolvePrintFormItem fs req).weightInput = none) := by
  have hlen : (m.requirements.length == 0) = false := by
    simpa using hne
  have hmain : populatePrintFilamentsFromModel modelName ms fs container =
      m.requirements.map (resolvePrintFormItem fs) := by
    simp [populatePrintFilamentsFromModel, hfind, hlen]
  have hmain' : populatePrintFilamentsFromModel modelName ms fs container' =
      m.requirements.map (resolvePrintFormItem fs) := by
    simp [populatePrintFilamentsFromModel, hfind, hlen]
  refine ⟨hmain, by rw [hmain, List.length_map], by rw [hmain, hmain'], ?_, ?_⟩
  · intro req
    unfold resolvePrintFormItem
    cases hid : req.filamentId with
    | none => rfl
    | some fid =>
        by_cases h0 : (fid == 0) = true
        · have : fid = 0 := by simpa using h0
          simp [h0, this]
        · have hfid0 : fid ≠ 0 := by simpa using h0
          simp only [h0, if_false, Bool.false_eq_true]
          cases hf : fs.find? (fun f => f.id == fid) with
          | none =>
              have : ∀ f ∈ fs, ¬((fun f : Filament => f.id == fid) f = true) :=
                fun f hfmem => by
                  have := List.find?_eq_none.mp hf f hfmem
                  simpa using this
              have hany : fs.any (fun f => f.id == fid) = false := by
                rcases hA : fs.any (fun f => f.id == fid) with _ | _
                · rfl
                · obtain ⟨f, hfmem, hp⟩ := List.any_eq_true.mp hA
                  exact absurd hp (this f hfmem)
              simp [hany]
          | some mf =>
              have hmem := List.mem_of_find?_eq_some hf
              have hpred := List.find?_some hf
              have hid' : mf.id = fid := by simpa using hpred
              have hany : fs.any (fun f => f.id == fid) = true :=
                List.any_eq_true.mpr ⟨mf, hmem, hpred⟩
              simp [hany, hfid0, hid']
  · intro req hw
    unfold resolvePrintFormItem
    simp [hw]

/-- Witness for the amended C3 at a concrete model and collection. -/
theorem populate_amended_witness :
    ([c3Model].find? (fun x => x.name == "Boat") = some c3Model) ∧
      c3Model.requirements.length ≠ 0 ∧
      populatePrintFilamentsFromModel "Boat" [c3Model] [c3Filament] [] =
        c3Model.requirements.map (resolvePrintFormItem [c3Filament]) :=
  ⟨by decide, by decide,
    (populate_amended "Boat" [c3Model] [c3Filament] [] [{}] c3Model
      (by decide) (by decide)).1⟩

/-- C5 counterexample: the search text is not limited to brand, materialType,
color and location — it also includes the legacy `material` and `colorName`
fields (absent fields rendering as `"undefined"`).  `c5Filament` has
colorName Blue but color Red: the query `"bl"` matches it in the code, while
the claim's field set yields no match. -/
theorem filterRows_counterexample :
    filamentFilterRows "bl" [c5Filament] = [c5Filament] ∧
      claimC5Filter "bl" [c5Filament] = [] := by
  constructor
  · decide
  · decide

/-- C5 (amended): a query of length less than 2 yields the full unfiltered
collection; a query of length at least 2 (already lowercased by the caller)
keeps exactly the records whose lowercased searchable text — the
space-joined concatenation of brand, materialType, legacy material,
colorName, color and location, absent fields rendering as the string
`"undefined"` — contains the query as a substring. -/
theorem filterRows_amended (query : String) (fs : List Filament)
    (f : Filament) (h2 : 2 ≤ query.length) :
    (f ∈ filamentFilterRows query fs ↔
        f ∈ fs ∧ jsIncludes (jsToLower (filamentSearchText f)) query = true) ∧
      (∀ q' : String, q'.length < 2 → filamentFilterRows q' fs = fs) := by
  constructor
  · have hge : ¬(query.length < 2) := by omega
    simp [filamentFilterRows, hge, List.mem_filter]
  · intro q' hq'
    simp [filamentFilterRows, hq']

/-- Witness for the amended C5 at a concrete query and collection. -/
theorem filterRows_amended_witness :
    (2 ≤ ("bl" : String).length) ∧
      (c5Filament ∈ filamentFilterRows "bl" [c5Filament] ↔
        c5Filament ∈ [c5Filament] ∧
          jsIncludes (jsToLower (filamentSearchText c5Filament)) "bl" = true) :=
  ⟨by decide, (filterRows_amended "bl" [c5Filament] c5Filament (by decide)).1⟩

/-- C7 counterexample: the color+material secondary match is not restricted
to records lacking a filamentId.  `c7Print` carries filamentId 2, different
from the filament's id 1, yet its matching color and material put it in the
reference set and block the deletion: the confirmed delete soft-retires the
spool instead of removing it. -/
theorem printReferences_counterexample :
    c7Print.filamentId = some 2 ∧ c7Filament.id = 1 ∧
      printReferences 1 c7Filament [c7Print] = [c7Print] ∧
      deleteFilament 1 true c7State =
        { filaments := [{ c7Filament with inStock := false, deletionBlocked := true }],
          models := [], prints := [c7Print] } := by
  refine ⟨rfl, rfl, by decide, by decide⟩

/-- C7 (amended): the PrintRecord reference set of `deleteFilament` is
computed as: top-level filamentId equal to the filament's id, or — for every
record, whatever its filamentId — color equal to the filament's color
together with material absent, empty or equal to the filament's
materialType.  (Usage arrays of new-format records are not consulted.) -/
theorem printReferences_amended (id : Int) (filament : Filament)
    (ps : List PrintRecord) (p : PrintRecord) :
    p ∈ printReferences id filament ps ↔
      p ∈ ps ∧ (p.filamentId = some id ∨
        (p.color = filament.color ∧
          (p.material = none ∨ p.material = some "" ∨
            p.material = filament.materialType))) := by
  rw [printReferences, List.mem_filter]
  constructor
  · rintro ⟨hmem, hmatch⟩
    refine ⟨hmem, ?_⟩
    rw [printRefMatch, Bool.or_eq_true] at hmatch
    rcases hmatch with h | h
    · exact Or.inl (by simpa using h)
    · rw [Bool.and_eq_true, Bool.or_eq_true] at h
      obtain ⟨hc, hm⟩ := h
      refine Or.inr ⟨by simpa using hc, ?_⟩
      rcases hm with hm | hm
      · cases hpm : p.material with
        | none => exact Or.inl rfl
        | some s =>
            rw [hpm] at hm
            have hs : s = "" := by simpa [optStrFalsy] using hm
            exact Or.inr (Or.inl (by rw [hs]))
      · exact Or.inr (Or.inr (by simpa using hm))
  · rintro ⟨hmem, hcases⟩
    refine ⟨hmem, ?_⟩
    rw [printRefMatch, Bool.or_eq_true]
    rcases hcases with h | ⟨hc, hm⟩
    · exact Or.inl (by simpa using h)
    · refine Or.inr ?_
      rw [Bool.and_eq_true, Bool.or_eq_true]
      refine ⟨by simpa using hc, ?_⟩
      rcases hm with hm | hm | hm
      · exact Or.inl (by rw [hm]; rfl)
      · exact Or.inl (by rw [hm]; rfl)
      · exact Or.inr (by simpa using hm)

/-- C10: when the collected form data duplicates an existing record (brand,
materialType and colorHex each equal case-insensitively) and the user
confirms merging, no new record is appended: the collection keeps its length
and its id list; only the first matching record changes, its weight growing
by exactly the new record's weight and its notes being concatenated. -/
theorem addFilament_merge_duplicate (fs : List Filament) (d dup : Filament)
    (hdup : checkForFilamentDuplicate fs d = some dup) :
    (addFilamentFlow true d fs).length = fs.length ∧
      (addFilamentFlow true d fs).map Filament.id = fs.map Filament.id ∧
      (∃ s t, fs = s ++ dup :: t ∧ (∀ x ∈ s, duplicateMatch d x = false) ∧
        addFilamentFlow true d fs = s ++ mergeInto d dup :: t) ∧
      (∀ w dw, dup.weight = some w → d.weight = some dw →
        (mergeInto d dup).weight = some (w + dw)) ∧
      (mergeInto d dup).notes = mergeNotes dup.notes d.notes ∧
      (mergeInto d dup).id = dup.id := by
  have hflow : addFilamentFlow true d fs =
      updateFirst (duplicateMatch d) (mergeInto d) fs := by
    unfold addFilamentFlow
    rw [hdup]
    rfl
  rw [checkForFilamentDuplicate] at hdup
  obtain ⟨s, t, hl, hs, ha⟩ := find?_decomp hdup
  refine ⟨?_, ?_, ⟨s, t, hl, hs, ?_⟩, ?_, rfl, rfl⟩
  · rw [hflow, updateFirst_length]
  · rw [hflow]
    exact updateFirst_map_eq (duplicateMatch d) (mergeInto d) Filament.id
      (fun a => rfl) fs
  · rw [hflow, hl, updateFirst_of_forall_not _ _ s hs dup t ha]
  · intro w dw hw hdw
    simp [mergeInto, mergeWeight, hw, hdw, qAdd_eq]

/-- Witness for C10 at a concrete collection with one duplicate. -/
theorem addFilament_merge_duplicate_witness :
    (checkForFilamentDuplicate [c10Existing] c10NewData = some c10Existing) ∧
      (addFilamentFlow true c10NewData [c10Existing]).map Filament.id =
        [c10Existing].map Filament.id :=
  ⟨by decide,
    (addFilament_merge_duplicate [c10Existing] c10NewData c10Existing
      (by decide)).2.1⟩

/-- C6: for every field rule and raw value, `validateField` evaluates exactly
the seven-stage pipeline (1) required/optional presence, (2) number coercion
— failing with `"<field> must be a number"` when `parseFloat` yields NaN —,
(3) min/max range, (4) minLength/maxLength, (5) pattern, (6) allowed-value
set — passing when `customAllowed` is set and the value is the literal
`'Other'` —, (7) custom predicate, each stage short-circuiting: a failure at
stage k returns that stage's message and evaluates no later stage
(`runStages` aborts at the first failing stage by construction). -/
theorem validateField_stage_order (ruleSet : String → Option Rule)
    (fieldName : String) (rule : Rule) (v : JsValue)
    (hr : ruleSet fieldName = some rule) :
    validateField ruleSet fieldName v = runStages v (stageList rule fieldName) ∧
      (rule.typeNumber = true → ∀ s : String, v = .str s → (s == "") = false →
        jsParseFloat s = none →
        validateField ruleSet fieldName v =
          ⟨false, some (fieldName ++ " must be a number")⟩) ∧
      (rule.customAllowed = true → v = .str "Other" →
        validateFieldAllowed v rule fieldName = ⟨true, none⟩) := by
  refine ⟨?_, ?_, ?_⟩
  · by_cases h1 : (rule.optional && jsFalsy v) = true
    · simp [validateField, hr, stageList, runStages, stagePresence, h1]
    · by_cases h2 : (rule.required && jsFalsy v) = true
      · simp [validateField, hr, stageList, runStages, stagePresence, h1, h2]
      · cases ht : validateFieldType v rule fieldName with
        | error r =>
            simp [validateField, hr, stageList, runStages, stagePresence,
              h1, h2, ht]
        | ok v' =>
            by_cases h3 : (validateFieldRange v' rule fieldName).valid = true
            · by_cases h4 : (validateFieldLength v' rule fieldName).valid = true
              · by_cases h5 : (validateFieldPattern v' rule fieldName).valid = true
                · by_cases h6 : (validateFieldAllowed v' rule fieldName).valid = true
                  · cases hv : rule.validate with
                    | none =>
                        simp [validateField, hr, stageList, runStages,
                          stagePresence, liftCheck, stageCustom,
                          h1, h2, ht, h3, h4, h5, h6, hv]
                    | some p =>
                        by_cases h7 : p v' = true
                        · simp [validateField, hr, stageList, runStages,
                            stagePresence, liftCheck, stageCustom,
                            h1, h2, ht, h3, h4, h5, h6, hv, h7]
                        · simp [validateField, hr, stageList, runStages,
                            stagePresence, liftCheck, stageCustom,
                            h1, h2, ht, h3, h4, h5, h6, hv, h7]
                  · simp [validateField, hr, stageList, runStages,
                      stagePresence, liftCheck, h1, h2, ht, h3, h4, h5, h6]
                · simp [validateField, hr, stageList, runStages,
                    stagePresence, liftCheck, h1, h2, ht, h3, h4, h5]
              · simp [validateField, hr, stageList, runStages,
                  stagePresence, liftCheck, h1, h2, ht, h3, h4]
            · simp [validateField, hr, stageList, runStages,
                stagePresence, liftCheck, h1, h2, ht, h3]
  · intro htype s hv hs hparse
    subst hv
    have hveq : (JsValue.str s == JsValue.str "") = false := by
      simpa using hs
    have hfalsy : jsFalsy (JsValue.str s) = false := hs
    simp [validateField, hr, hfalsy, validateFieldType, htype, hveq, hparse]
  · intro hca hv
    subst hv
    cases hal : rule.allowed with
    | none => simp [validateFieldAllowed, hal]
    | some l =>
        by_cases hc : l.contains (JsValue.str "Other") = true
        · simp [validateFieldAllowed, hal, hc, hca]
        · simp [validateFieldAllowed, hal, hc, hca]

/-- Witness for C6: a concrete number-typed required rule and the
non-numeric input `"abc"`, rejected at the coercion stage with the claimed
message. -/
theorem validateField_stage_order_witness :
    (c6RuleSet "weight" = some c6Rule) ∧
      validateField c6RuleSet "weight" (.str "abc") =
        ⟨false, some "weight must be a number"⟩ :=
  ⟨rfl,
    ((validateField_stage_order c6RuleSet "weight" c6Rule (.str "abc")
      rfl).2.1) rfl "abc" rfl (by decide) (by decide)⟩

end PrintStack
